import Mathlib

/-!
Shallow embedding of the `discohook` library (a Discord HTTP Interaction API
wrapper) and proofs about its request listener, response adapters and the
follow-up token cache.

Python dictionaries are embedded as insertion-ordered association lists:
`dset` is `d[k] = v`, `dget` is `d.get(k)`, `dpop` is `d.pop(k, None)`.
JSON payloads are embedded by the inductive type `J`.
-/

namespace Discohook

/-- A JSON value, as produced by the library's serializers. -/
inductive J where
  | str (s : String)
  | nat (n : Nat)
  | bool (b : Bool)
  | arr (xs : List J)
  | obj (fields : List (String × J))

/-- `d.get(k)` on a Python dict embedded as an insertion-ordered assoc list. -/
def dget {α : Type} (d : List (String × α)) (k : String) : Option α :=
  match d with
  | [] => none
  | (k', v) :: rest => if k' = k then some v else dget rest k

/-- `d[k] = v` on a Python dict: replaces the value in place if the key is
present (a dict holds each key once), otherwise appends the new binding
(CPython insertion order). -/
def dset {α : Type} (d : List (String × α)) (k : String) (v : α) : List (String × α) :=
  match d with
  | [] => [(k, v)]
  | (k', v') :: rest => if k' = k then (k, v) :: rest else (k', v') :: dset rest k v

/-- `d.pop(k, None)`: removes the binding for `k` if present. -/
def dpop {α : Type} (d : List (String × α)) (k : String) : List (String × α) :=
  d.filter (fun p => p.1 ≠ k)

/-- Modelled from the spec: `enums.py` is absent from the source tree; the spec
describes the dispatch as a "switch on an integer enum" over Discord's
documented interaction types, which are reproduced here. -/
inductive InteractionType where
  | ping
  | app_command
  | component
  | autocomplete
  | modal_submit
  deriving Repr, DecidableEq

/-- The integer wire value of an interaction type. -/
def InteractionType.value : InteractionType → Nat
  | .ping => 1
  | .app_command => 2
  | .component => 3
  | .autocomplete => 4
  | .modal_submit => 5

/-- Modelled from the spec: `enums.py` is absent from the source tree; these
are Discord's documented interaction callback types used by the response
methods in `response.py` and `interaction.py`. -/
inductive InteractionCallbackType where
  | pong
  | channel_message_with_source
  | deferred_channel_message_with_source
  | deferred_update_component_message
  | update_component_message
  | autocomplete
  | modal
  deriving Repr, DecidableEq

/-- The integer wire value of an interaction callback type. -/
def InteractionCallbackType.value : InteractionCallbackType → Nat
  | .pong => 1
  | .channel_message_with_source => 4
  | .deferred_channel_message_with_source => 5
  | .deferred_update_component_message => 6
  | .update_component_message => 7
  | .autocomplete => 8
  | .modal => 9

/-- Modelled from the spec: `enums.py` is absent from the source tree; the
application command categories (slash, user, message) used by `command.py`. -/
inductive ApplicationCommandType where
  | slash
  | user
  | message
  deriving Repr, DecidableEq

/-- The integer wire value of an application command category. -/
def ApplicationCommandType.value : ApplicationCommandType → Nat
  | .slash => 1
  | .user => 2
  | .message => 3

/-!
## The request listener (`listener.py`)

`listener` verifies the Ed25519 signature of the incoming request and then
dispatches on the interaction's integer type.  The Ed25519 primitive itself is
delegated to `nacl` in the source, so it enters the embedding as a boolean
verification function parameter `verify` applied to the application's public
key, the `X-Signature-Timestamp` header, the raw request body and the
`X-Signature-Ed25519` header, exactly the data `listener.py` feeds to
`VerifyKey.verify`.
-/

/-- The `app_command_data` payload of an application-command interaction:
the invoked command's id and its raw `options` list (which `listener.py`
hands to `build_prams` to build the callback's parameters). -/
structure AppCommandData where
  id : String
  options : List J

/-- The fields of the deserialized interaction payload that `listener.py`
reads: the integer `type`, the command data for the app-command branch and the
raw `data` dict for the component branch. -/
structure InteractionPayload where
  type : Nat
  app_command_data : AppCommandData
  data : List (String × String)

/-- An incoming HTTP request as seen by `listener`: the two signature headers,
the raw body, and the interaction payload obtained from `request.json()`. -/
structure ListenerRequest where
  signature : String
  timestamp : String
  body : String
  interaction : InteractionPayload

/-- The application state `listener.py` reads from `request.app`: the hex
public key, the registered command table keyed by command id (each entry
standing for the registered command and its callback), and the `ui_factory`
component table keyed by custom id. -/
structure App where
  public_key : String
  application_commands : List (String × String)
  ui_factory : List (String × String)

/-- Everything `listener` can do with a request, read off from the `return`
statements of `listener.py`: a plain `Response`, a `JSONResponse`, the
ephemeral `interaction.response(...)` for a missing command handler, awaiting
a registered command callback (with the parameters `build_prams` builds from
the interaction's options), awaiting a component callback, or falling off the
end of the function (Python returns `None`). -/
inductive ListenerResult where
  | response (body : String) (status : Nat)
  | jsonResponse (payload : List (String × J)) (status : Nat)
  | interactionResponse (content : String) (ephemeral : Bool)
  | commandCallback (callback : String) (options : List J)
  | componentCallback (custom_id : String)
  | noResponse

/-- The request listener of `listener.py`, line by line: signature failure
returns 401; then a four-way branch on the interaction type (ping, application
command, component, otherwise).  The component branch falls through to `None`
unless the payload's `custom_id` is non-empty and registered in `ui_factory`.
`build_prams` lives in the absent `parser.py`; its deterministic inputs (the
registered callback and the interaction's options) are recorded in the
`commandCallback` result. -/
def listener (verify : String → String → String → String → Bool)
    (app : App) (req : ListenerRequest) : ListenerResult :=
  if ¬ verify app.public_key req.timestamp req.body req.signature then
    .response "request validation failed" 401
  else
    let i := req.interaction
    if i.type = InteractionType.ping.value then
      .jsonResponse [("type", J.nat InteractionCallbackType.pong.value)] 200
    else if i.type = InteractionType.app_command.value then
      match dget app.application_commands i.app_command_data.id with
      | none => .interactionResponse "command not implemented!" true
      | some cb => .commandCallback cb i.app_command_data.options
    else if i.type = InteractionType.component.value then
      let custom_id := (dget i.data "custom_id").getD ""
      let component := dget app.ui_factory custom_id
      if custom_id ≠ "" ∧ component.isSome then
        .componentCallback custom_id
      else
        .noResponse
    else
      .jsonResponse [("message", J.str "unhandled interaction type")] 300

/-!
## Client state, interactions and UI objects

`client.py` is absent from the source tree; the spec describes the client as
holding the application's credentials, the registered command table, and
"a small in-memory map from interaction id to follow-up token".  The code in
`src` additionally reads and writes `client.active_components`, a registry of
live views and modals keyed by custom id, and calls two client methods,
`store_inter_token` and `load_components`, modelled below.
-/

/-- A UI component carried by a view (`view.py` is absent from the source
tree; only its custom id matters to the client state the claims speak about). -/
structure Component where
  custom_id : String
  deriving Repr, DecidableEq

/-- A view: a container of components (`view.py` is absent from the source
tree; the embedded shape is the part `load_components` consumes). -/
structure View where
  components : List Component
  deriving Repr, DecidableEq

/-- A modal dialog (`modal.py` is absent from the source tree; the embedding
keeps its custom id and title, the fields `send_modal` uses). -/
structure Modal where
  custom_id : String
  title : String
  deriving Repr, DecidableEq

/-- `Modal.to_dict`.  Modelled from the spec: `modal.py` is absent from the
source tree; the spec describes every UI class as "a serialization method
producing the exact JSON Discord expects", here the modal's custom id and
title. -/
def Modal.to_dict (m : Modal) : J :=
  J.obj [("title", J.str m.title), ("custom_id", J.str m.custom_id)]

/-- An entry of the client's `active_components` registry: a registered modal
or view component. -/
inductive ActiveComponent where
  | modal (m : Modal)
  | component (c : Component)
  deriving Repr, DecidableEq

/-- Modelled from the spec: `client.py` is absent from the source tree.  The
fields are the client state the code in `src` reads or writes — the spec's
command table, public key and application credentials, the follow-up token
map `cached_inter_tokens`, and the `active_components` registry. -/
structure Client where
  application_id : String
  public_key : String
  bot_token : String
  application_commands : List (String × String)
  cached_inter_tokens : List (String × String)
  active_components : List (String × ActiveComponent)
  deriving Repr, DecidableEq

/-- `Client.store_inter_token`.  Modelled from the spec: `client.py` is absent
from the source tree; the spec says the client "store[s] a token in a
dictionary keyed by interaction id". -/
def Client.store_inter_token (c : Client) (id token : String) : Client :=
  { c with cached_inter_tokens := dset c.cached_inter_tokens id token }

/-- `Client.load_components`.  Modelled from the spec: `client.py` is absent
from the source tree; the method registers each component of a view into the
client's `active_components` registry keyed by custom id (the registry the
listener consults for component callbacks), touching no other client field. -/
def Client.load_components (c : Client) (v : View) : Client :=
  let registry := v.components.foldl
    (fun acc comp => dset acc comp.custom_id (ActiveComponent.component comp))
    c.active_components
  { c with active_components := registry }

/-- The interaction fields read by the response methods in `interaction.py`
and `response.py`: payload id, token, integer type and application id. -/
structure Interaction where
  id : String
  token : String
  type : InteractionType
  application_id : String
  deriving Repr, DecidableEq

/-- A component interaction (`ComponentInteraction` in `interaction.py`).
`parent_id` is `self.message.interaction_data["id"]`: the id of the parent
interaction read from the message payload the component was attached to. -/
structure ComponentInteraction extends Interaction where
  parent_id : String
  deriving Repr, DecidableEq

/-- An autocomplete choice (`Choice` in `option.py`): a name and a value.
Its serializer produces the object with the two fields `name` and `value`
(named `to_json` in the `option.py` snapshot under `src`, invoked as
`to_dict` by `response.py`). -/
structure Choice where
  name : String
  value : String
  deriving Repr, DecidableEq

/-- The `name`/`value` object produced by the choice serializer in
`option.py`. -/
def Choice.to_dict (c : Choice) : J :=
  J.obj [("name", J.str c.name), ("value", J.str c.value)]

/-- The `InteractionTypeMismatch` error of `errors.py` (absent from the source
tree), raised by the response adapter as
`InteractionTypeMismatch(f"Method not supported for {self.inter.type}")`:
it carries the offending interaction type. -/
inductive DiscoError where
  | interactionTypeMismatch (t : InteractionType)
  deriving Repr, DecidableEq

/-- The HTTP requests the response methods hand to `client.http`.  Multipart
calls (`..._mp_...`) carry `create_form(payload, files)`; the embedding keeps
the JSON payload part of the form (`multipart.py`, absent from the source
tree, is the mechanical form assembly the spec puts out of scope, and no
claim concerns file parts). -/
inductive HttpCall where
  | send_interaction_callback (id token : String) (payload : J)
  | send_interaction_mp_callback (id token : String) (payload : J)
  | edit_interaction_mp_callback (id token : String) (payload : J)
  | send_webhook_message (application_id token : String) (payload : J)
  | edit_webhook_message (application_id token message_id : String) (payload : J)
  | delete_webhook_message (application_id token message_id : String)

/-- `handle_send_params`.  Modelled from the spec: `params.py` is absent from
the source tree; the spec describes it as mechanical serialization of the
send arguments into the message payload dict (content, ephemeral flag 64,
view components), reading no client state. -/
def handle_send_params (content : Option String) (view : Option View)
    (ephemeral : Bool) : J :=
  J.obj ((match content with | some s => [("content", J.str s)] | none => [])
    ++ (if ephemeral then [("flags", J.nat 64)] else [])
    ++ (match view with
        | some v => [("components", J.arr (v.components.map (fun c => J.str c.custom_id)))]
        | none => []))

/-- `handle_edit_params`.  Modelled from the spec: `params.py` is absent from
the source tree; the mechanical serialization of the edit arguments into the
edit payload dict, reading no client state.  An argument left at the `MISSING`
sentinel or passed as `None` contributes nothing, embedded as `none`. -/
def handle_edit_params (content : Option String) (view : Option View) : J :=
  J.obj ((match content with | some s => [("content", J.str s)] | none => [])
    ++ (match view with
        | some v => [("components", J.arr (v.components.map (fun c => J.str c.custom_id)))]
        | none => []))

/-!
## Response operations

Each method is embedded as a function from the interaction, the client state
and the method's arguments to the updated client state and the list of HTTP
calls issued, in order.  Methods that raise `InteractionTypeMismatch` before
doing anything return `Except.error`.  A `view` argument is `some v` when a
view object is passed (Python truthiness: a `View` instance is truthy, while
`None` and the `MISSING` sentinel both fail the `view and view is not
MISSING` guard). -/

/-- `Interaction.response` (`interaction.py`): serializes the send params,
stores the follow-up token and registers the view's components when a view is
carried, and issues the `channel_message_with_source` multipart callback. -/
def Interaction.response (i : Interaction) (c : Client) (content : Option String)
    (view : Option View) (ephemeral : Bool) : Client × List HttpCall :=
  let data := handle_send_params content view ephemeral
  let c :=
    match view with
    | some v => (c.store_inter_token i.id i.token).load_components v
    | none => c
  let payload := J.obj [("data", data),
    ("type", J.nat InteractionCallbackType.channel_message_with_source.value)]
  (c, [HttpCall.send_interaction_mp_callback i.id i.token payload])

/-- `ResponseAdapter.send` (`response.py`): identical client behaviour to
`Interaction.response` (it additionally sets the interaction-object flag
`_responded`, which is not client state). -/
def ResponseAdapter.send (i : Interaction) (c : Client) (content : Option String)
    (view : Option View) (ephemeral : Bool) : Client × List HttpCall :=
  let data := handle_send_params content view ephemeral
  let c :=
    match view with
    | some v => (c.store_inter_token i.id i.token).load_components v
    | none => c
  let payload := J.obj [("data", data),
    ("type", J.nat InteractionCallbackType.channel_message_with_source.value)]
  (c, [HttpCall.send_interaction_mp_callback i.id i.token payload])

/-- `ResponseAdapter.followup` (`response.py`): serializes the send params,
stores the token and registers the view when one is carried, and posts the
payload to the webhook endpoint. -/
def ResponseAdapter.followup (i : Interaction) (c : Client) (content : Option String)
    (view : Option View) (ephemeral : Bool) : Client × List HttpCall :=
  let payload := handle_send_params content view ephemeral
  let c :=
    match view with
    | some v => (c.store_inter_token i.id i.token).load_components v
    | none => c
  (c, [HttpCall.send_webhook_message i.application_id i.token payload])

/-- `ResponseAdapter.send_modal` (`response.py`): raises
`InteractionTypeMismatch` unless the interaction is a component or application
command; otherwise registers the modal under its custom id in
`active_components` and issues the modal callback. -/
def ResponseAdapter.send_modal (i : Interaction) (c : Client) (m : Modal) :
    Except DiscoError (Client × List HttpCall) :=
  if i.type ≠ InteractionType.component ∧ i.type ≠ InteractionType.app_command then
    .error (.interactionTypeMismatch i.type)
  else
    let registry := dset c.active_components m.custom_id (ActiveComponent.modal m)
    let c := { c with active_components := registry }
    let payload := J.obj [("data", m.to_dict),
      ("type", J.nat InteractionCallbackType.modal.value)]
    .ok (c, [HttpCall.send_interaction_callback i.id i.token payload])

/-- `Interaction.send_modal` (`interaction.py`): registers the modal under its
custom id in `active_components` (no type check in this older method) and
issues the modal callback. -/
def Interaction.send_modal (i : Interaction) (c : Client) (m : Modal) :
    Client × List HttpCall :=
  let registry := dset c.active_components m.custom_id (ActiveComponent.modal m)
  let c := { c with active_components := registry }
  let payload := J.obj [("data", m.to_dict),
    ("type", J.nat InteractionCallbackType.modal.value)]
  (c, [HttpCall.send_interaction_callback i.id i.token payload])

/-- `ResponseAdapter.autocomplete` (`response.py`): raises
`InteractionTypeMismatch` unless the interaction is an autocomplete; otherwise
truncates the choices to the first 25 (`choices[:25]`) and issues the
autocomplete callback with their serializations. -/
def ResponseAdapter.autocomplete (i : Interaction) (c : Client)
    (choices : List Choice) : Except DiscoError (Client × List HttpCall) :=
  if i.type ≠ InteractionType.autocomplete then
    .error (.interactionTypeMismatch i.type)
  else
    let choices := choices.take 25
    let payload := J.obj [("type", J.nat InteractionCallbackType.autocomplete.value),
      ("data", J.obj [("choices", J.arr (choices.map Choice.to_dict))])]
    .ok (c, [HttpCall.send_interaction_callback i.id i.token payload])

/-- `ResponseAdapter.defer` (`response.py`): a component interaction gets a
`deferred_update_component_message` callback; an application-command or
modal-submit interaction gets a `deferred_channel_message_with_source`
callback with `{"flags": 64}` data exactly when `ephemeral`; any other type
raises `InteractionTypeMismatch` before sending anything. -/
def ResponseAdapter.defer (i : Interaction) (c : Client) (ephemeral : Bool) :
    Except DiscoError (Client × List HttpCall) :=
  if i.type = InteractionType.component then
    let payload := J.obj
      [("type", J.nat InteractionCallbackType.deferred_update_component_message.value)]
    .ok (c, [HttpCall.send_interaction_callback i.id i.token payload])
  else if i.type = InteractionType.app_command ∨ i.type = InteractionType.modal_submit then
    let payload := J.obj
      ([("type", J.nat InteractionCallbackType.deferred_channel_message_with_source.value)]
        ++ (if ephemeral then [("data", J.obj [("flags", J.nat 64)])] else []))
    .ok (c, [HttpCall.send_interaction_callback i.id i.token payload])
  else
    .error (.interactionTypeMismatch i.type)

/-- `ResponseAdapter.update_message` (`response.py`): raises
`InteractionTypeMismatch` for autocomplete and application-command
interactions; otherwise registers the view when one is carried, stores the
follow-up token unconditionally, and issues the `update_component_message`
multipart callback. -/
def ResponseAdapter.update_message (i : Interaction) (c : Client)
    (content : Option String) (view : Option View) :
    Except DiscoError (Client × List HttpCall) :=
  if i.type = InteractionType.autocomplete ∨ i.type = InteractionType.app_command then
    .error (.interactionTypeMismatch i.type)
  else
    let data := handle_edit_params content view
    let c :=
      match view with
      | some v => c.load_components v
      | none => c
    let c := c.store_inter_token i.id i.token
    let payload := J.obj
      [("type", J.nat InteractionCallbackType.update_component_message.value),
       ("data", data)]
    .ok (c, [HttpCall.send_interaction_mp_callback i.id i.token payload])

/-- `InteractionResponse.edit` (`response.py`): registers the view when one is
carried, stores the follow-up token unconditionally, and edits the original
webhook message. -/
def InteractionResponse.edit (i : Interaction) (c : Client)
    (content : Option String) (view : Option View) : Client × List HttpCall :=
  let data := handle_edit_params content view
  let c :=
    match view with
    | some v => c.load_components v
    | none => c
  let c := c.store_inter_token i.id i.token
  (c, [HttpCall.edit_webhook_message i.application_id i.token "@original" data])

/-- `FollowupResponse.edit` (`response.py`): registers the view when one is
carried, stores the follow-up token unconditionally, and edits the follow-up
message (`message_id` is `self.message.id`). -/
def FollowupResponse.edit (i : Interaction) (c : Client) (message_id : String)
    (content : Option String) (view : Option View) : Client × List HttpCall :=
  let data := handle_edit_params content view
  let c :=
    match view with
    | some v => c.load_components v
    | none => c
  let c := c.store_inter_token i.id i.token
  (c, [HttpCall.edit_webhook_message i.application_id i.token message_id data])

/-- `ComponentInteraction.origin` (`interaction.py`): the cached follow-up
token of the parent interaction, looked up by the id read from the message's
interaction data, with `""` as the default
(`self.client.cached_inter_tokens.get(parent_id, "")`). -/
def ComponentInteraction.origin (ci : ComponentInteraction) (c : Client) : String :=
  (dget c.cached_inter_tokens ci.parent_id).getD ""

/-- `ComponentInteraction.delete_original` (`interaction.py`): returns doing
nothing when `origin` is falsy; otherwise pops the cache entry keyed by the
component interaction's OWN id (`self.client.cached_inter_tokens.pop(self.id,
None)`) and deletes the original webhook message addressed by the origin
token. -/
def ComponentInteraction.delete_original (ci : ComponentInteraction) (c : Client) :
    Client × List HttpCall :=
  let org := ci.origin c
  if org = "" then (c, [])
  else
    ({ c with cached_inter_tokens := dpop c.cached_inter_tokens ci.id },
     [HttpCall.delete_webhook_message ci.application_id org "@original"])

/-!
## Application commands (`command.py`)
-/

/-- A command option as serialized by the base `Option.to_dict` in
`option.py`: the `data` dict holding name, description, required flag and the
integer option type. -/
structure CmdOption where
  name : String
  description : String
  required : Bool
  type : Nat
  deriving Repr, DecidableEq

/-- The base option serializer of `option.py`. -/
def CmdOption.to_dict (o : CmdOption) : J :=
  J.obj [("name", J.str o.name), ("description", J.str o.description),
    ("required", J.bool o.required), ("type", J.nat o.type)]

/-- `ApplicationCommand` (`command.py`), with the fields `to_dict` reads.
A permission is its integer bitfield value (`Permissions` lives in the absent
`permissions.py`; `to_dict` only reads `.value`).  `self.data` starts out as
the empty dict set up by `__init__`. -/
structure ApplicationCommand where
  name : String
  description : Option String := none
  options : Option (List CmdOption) := none
  dm_access : Bool := true
  permissions : Option (List Nat) := none
  category : ApplicationCommandType := .slash
  deriving Repr, DecidableEq

/-- `ApplicationCommand.to_dict` (`command.py`), statement by statement on a
fresh `self.data = {}`: set `type`; for slash commands add `description` and
`options` when truthy (a `None` or empty description/options list is falsy);
set `name`; add `dm_permission` (the `dm_access` value, necessarily `False`)
when `dm_access` is falsy; add `default_member_permissions` as the decimal
string of the OR-accumulated permission values when the permission list is
truthy. -/
def ApplicationCommand.to_dict (cmd : ApplicationCommand) : List (String × J) :=
  let d : List (String × J) := dset [] "type" (J.nat cmd.category.value)
  let d :=
    if cmd.category = ApplicationCommandType.slash then
      let d :=
        match cmd.description with
        | some s => if s ≠ "" then dset d "description" (J.str s) else d
        | none => d
      match cmd.options with
      | some opts =>
          if opts ≠ [] then dset d "options" (J.arr (opts.map CmdOption.to_dict)) else d
      | none => d
    else d
  let d := dset d "name" (J.str cmd.name)
  let d := if cmd.dm_access then d else dset d "dm_permission" (J.bool cmd.dm_access)
  match cmd.permissions with
  | some perms =>
      if perms ≠ [] then
        let base := perms.foldl (fun b p => b ||| p) 0
        dset d "default_member_permissions" (J.str (toString base))
      else d
  | none => d

/-- The client fields no response operation may change: credentials and the
registered command table. -/
def framePreserved (c c' : Client) : Prop :=
  c'.application_id = c.application_id ∧ c'.public_key = c.public_key ∧
  c'.bot_token = c.bot_token ∧ c'.application_commands = c.application_commands

/-!
## Dictionary lemmas
-/

/-- Looking up after an assignment: the assigned key yields the new value,
every other key is untouched. -/
theorem dget_dset {α : Type} (d : List (String × α)) (k : String) (v : α) (q : String) :
    dget (dset d k v) q = if q = k then some v else dget d q := by
  induction d with
  | nil =>
    by_cases h : q = k
    · subst h; simp [dset, dget]
    · have h' : ¬k = q := fun hc => h hc.symm
      simp [dset, dget, h, h']
  | cons p rest ih =>
    obtain ⟨k1, v1⟩ := p
    by_cases h1 : k1 = k
    · subst h1
      by_cases h2 : q = k1
      · subst h2; simp [dset, dget]
      · have h2' : ¬k1 = q := fun hc => h2 hc.symm
        simp [dset, dget, h2, h2']
    · by_cases h2 : k1 = q
      · subst h2
        have hne : ¬k1 = k := h1
        have hne' : ¬k1 = k := h1
        simp [dset, dget, hne, fun hc => hne (hc : k1 = k)]
      · simp [dset, dget, h1, h2, ih]

/-- Every entry of `dset d k v` is an old entry of `d` or the new pair. -/
theorem mem_dset {α : Type} (d : List (String × α)) (k : String) (v : α)
    (p : String × α) (hp : p ∈ dset d k v) : p ∈ d ∨ p = (k, v) := by
  induction d with
  | nil => simpa [dset] using hp
  | cons q rest ih =>
    obtain ⟨k1, v1⟩ := q
    by_cases h1 : k1 = k
    · simp [dset, h1] at hp
      rcases hp with h | h
      · right; simp [h]
      · left; exact List.mem_cons_of_mem _ h
    · simp [dset, h1] at hp
      rcases hp with h | h
      · left; simp [h]
      · rcases ih h with h' | h'
        · left; exact List.mem_cons_of_mem _ h'
        · right; exact h'

/-- Looking up a key different from a conditionally assigned one skips the
assignment. -/
theorem dget_ite_dset {α : Type} (cond : Prop) [Decidable cond]
    (d : List (String × α)) (k : String) (v : α) (q : String) (h : q ≠ k) :
    dget (if cond then dset d k v else d) q = dget d q := by
  split
  · simp [dget_dset, h]
  · rfl

/-- Symmetric form of `dget_ite_dset` for a negated condition. -/
theorem dget_ite_dset_swap {α : Type} (cond : Prop) [Decidable cond]
    (d : List (String × α)) (k : String) (v : α) (q : String) (h : q ≠ k) :
    dget (if cond then d else dset d k v) q = dget d q := by
  split
  · rfl
  · simp [dget_dset, h]

/-- Popping one key leaves every other key's lookup unchanged. -/
theorem dget_dpop_ne {α : Type} (d : List (String × α)) (k q : String) (h : q ≠ k) :
    dget (dpop d k) q = dget d q := by
  induction d with
  | nil => rfl
  | cons p rest ih =>
    obtain ⟨k1, v1⟩ := p
    by_cases h1 : k1 = k
    · subst h1
      have hq : k1 ≠ q := fun hc => h hc.symm
      simp [dpop, dget, hq, List.filter] at ih ⊢
      exact ih
    · simp [dpop, dget, h1, List.filter] at ih ⊢
      by_cases h2 : k1 = q <;> simp [h2, ih]

/-!
## Theorems about the request listener
-/

/-- C1: a request whose Ed25519 signature verification fails is answered with
a plain HTTP 401 response whose body is `request validation failed`, and no
command or component callback is invoked for it. -/
theorem listener_signature_failure_returns_401
    (verify : String → String → String → String → Bool) (app : App) (req : ListenerRequest)
    (h : verify app.public_key req.timestamp req.body req.signature = false) :
    listener verify app req = .response "request validation failed" 401 ∧
    (∀ cb opts, listener verify app req ≠ .commandCallback cb opts) ∧
    (∀ cid, listener verify app req ≠ .componentCallback cid) := by
  have heq : listener verify app req = .response "request validation failed" 401 := by
    simp [listener, h]
  refine ⟨heq, fun cb opts hc => ?_, fun cid hc => ?_⟩
  · rw [heq] at hc
    exact ListenerResult.noConfusion hc
  · rw [heq] at hc
    exact ListenerResult.noConfusion hc

/-- Witness for C1 at a concrete failing request. -/
theorem listener_signature_failure_returns_401_witness :
    listener (fun _ _ _ _ => false) ⟨"pk", [], []⟩ ⟨"sig", "ts", "body", ⟨2, ⟨"cid", []⟩, []⟩⟩
      = .response "request validation failed" 401 :=
  (listener_signature_failure_returns_401 (fun _ _ _ _ => false)
    ⟨"pk", [], []⟩ ⟨"sig", "ts", "body", ⟨2, ⟨"cid", []⟩, []⟩⟩ rfl).1

/-- C2: a signature-verified request whose interaction type is none of ping,
application command or component is answered with the JSON payload
`{"message": "unhandled interaction type"}` and status 300. -/
theorem listener_unknown_type_returns_300
    (verify : String → String → String → String → Bool) (app : App) (req : ListenerRequest)
    (hv : verify app.public_key req.timestamp req.body req.signature = true)
    (hp : req.interaction.type ≠ InteractionType.ping.value)
    (ha : req.interaction.type ≠ InteractionType.app_command.value)
    (hc : req.interaction.type ≠ InteractionType.component.value) :
    listener verify app req
      = .jsonResponse [("message", J.str "unhandled interaction type")] 300 := by
  simp [listener, hv, hp, ha, hc]

/-- Witness for C2 at a concrete autocomplete-typed request. -/
theorem listener_unknown_type_returns_300_witness :
    listener (fun _ _ _ _ => true) ⟨"pk", [], []⟩ ⟨"sig", "ts", "body", ⟨4, ⟨"cid", []⟩, []⟩⟩
      = .jsonResponse [("message", J.str "unhandled interaction type")] 300 :=
  listener_unknown_type_returns_300 (fun _ _ _ _ => true)
    ⟨"pk", [], []⟩ ⟨"sig", "ts", "body", ⟨4, ⟨"cid", []⟩, []⟩⟩ rfl
    (by decide) (by decide) (by decide)

/-- C3: a signature-verified application-command interaction is answered with
the ephemeral `command not implemented!` response when its command id is not
in the registered command table, and otherwise the registered command's
callback is invoked with the parameters built from the interaction's
options. -/
theorem listener_app_command_dispatch
    (verify : String → String → String → String → Bool) (app : App) (req : ListenerRequest)
    (hv : verify app.public_key req.timestamp req.body req.signature = true)
    (ht : req.interaction.type = InteractionType.app_command.value) :
    listener verify app req
      = match dget app.application_commands req.interaction.app_command_data.id with
        | none => .interactionResponse "command not implemented!" true
        | some cb => .commandCallback cb req.interaction.app_command_data.options := by
  cases hcmd : dget app.application_commands req.interaction.app_command_data.id <;>
    simp [listener, hv, ht, hcmd, InteractionType.value]

/-- Witness for C3 at a concrete registered command. -/
theorem listener_app_command_dispatch_witness :
    listener (fun _ _ _ _ => true) ⟨"pk", [("cid", "cb")], []⟩
      ⟨"sig", "ts", "body", ⟨2, ⟨"cid", [J.nat 7]⟩, []⟩⟩
      = .commandCallback "cb" [J.nat 7] :=
  listener_app_command_dispatch (fun _ _ _ _ => true) ⟨"pk", [("cid", "cb")], []⟩
    ⟨"sig", "ts", "body", ⟨2, ⟨"cid", [J.nat 7]⟩, []⟩⟩ rfl rfl

/-- C9: a signature-verified component interaction whose `custom_id` is
missing, empty or unregistered produces no response at all (the listener falls
through and returns `None`), and no component interaction can ever reach a
`JSONResponse` — in particular the 300 branch is unreachable for them. -/
theorem listener_component_fallthrough
    (verify : String → String → String → String → Bool) (app : App) (req : ListenerRequest)
    (hv : verify app.public_key req.timestamp req.body req.signature = true)
    (ht : req.interaction.type = InteractionType.component.value) :
    (((dget req.interaction.data "custom_id").getD "" = "" ∨
        dget app.ui_factory ((dget req.interaction.data "custom_id").getD "") = none) →
      listener verify app req = .noResponse) ∧
    (∀ fields status, listener verify app req ≠ .jsonResponse fields status) := by
  constructor
  · intro hmiss
    rcases hmiss with hempty | hnone
    · simp [listener, hv, ht, hempty, InteractionType.value]
    · simp [listener, hv, ht, hnone, InteractionType.value]
  · intro fields status hcontra
    simp only [listener, hv, ht, InteractionType.value] at hcontra
    norm_num at hcontra
    split at hcontra <;> exact ListenerResult.noConfusion hcontra

/-- Witness for C9 at a concrete unregistered component interaction. -/
theorem listener_component_fallthrough_witness :
    listener (fun _ _ _ _ => true) ⟨"pk", [], []⟩
      ⟨"sig", "ts", "body", ⟨3, ⟨"", []⟩, [("custom_id", "btn")]⟩⟩ = .noResponse :=
  (listener_component_fallthrough (fun _ _ _ _ => true) ⟨"pk", [], []⟩
    ⟨"sig", "ts", "body", ⟨3, ⟨"", []⟩, [("custom_id", "btn")]⟩⟩ rfl rfl).1
    (Or.inr rfl)

/-!
## Theorems about the follow-up token cache
-/

/-- C4: every view-carrying send or edit stores exactly the pair
(interaction id, interaction token) in the follow-up token cache, for all six
operations, and consequently every entry of the updated cache is an old entry
or that pair. -/
theorem token_cache_key_value_invariant (c : Client) (i : Interaction)
    (content : Option String) (v : View) (ephemeral : Bool) (message_id : String) :
    ((i.response c content (some v) ephemeral).1.cached_inter_tokens
        = dset c.cached_inter_tokens i.id i.token) ∧
    ((ResponseAdapter.send i c content (some v) ephemeral).1.cached_inter_tokens
        = dset c.cached_inter_tokens i.id i.token) ∧
    ((ResponseAdapter.followup i c content (some v) ephemeral).1.cached_inter_tokens
        = dset c.cached_inter_tokens i.id i.token) ∧
    (∀ r, ResponseAdapter.update_message i c content (some v) = Except.ok r →
        r.1.cached_inter_tokens = dset c.cached_inter_tokens i.id i.token) ∧
    ((InteractionResponse.edit i c content (some v)).1.cached_inter_tokens
        = dset c.cached_inter_tokens i.id i.token) ∧
    ((FollowupResponse.edit i c message_id content (some v)).1.cached_inter_tokens
        = dset c.cached_inter_tokens i.id i.token) ∧
    (∀ p, p ∈ dset c.cached_inter_tokens i.id i.token →
        p ∈ c.cached_inter_tokens ∨ p = (i.id, i.token)) := by
  refine ⟨rfl, rfl, rfl, ?_, rfl, rfl, fun p hp => mem_dset _ _ _ _ hp⟩
  intro r hr
  unfold ResponseAdapter.update_message at hr
  split at hr
  · exact Except.noConfusion hr
  · injection hr with h
    rw [← h]
    rfl

/-- Witness for C4 at a concrete interaction and view. -/
theorem token_cache_key_value_invariant_witness :
    (Interaction.response ⟨"id1", "tok1", InteractionType.component, "app"⟩
        ⟨"app", "pk", "bt", [], [], []⟩ (some "hi") (some ⟨[⟨"btn"⟩]⟩) false).1.cached_inter_tokens
      = dset [] "id1" "tok1" :=
  (token_cache_key_value_invariant ⟨"app", "pk", "bt", [], [], []⟩
    ⟨"id1", "tok1", InteractionType.component, "app"⟩ (some "hi") ⟨[⟨"btn"⟩]⟩ false "m1").1

/-- C5 counterexample: `ResponseAdapter.send_modal` on an application-command
interaction writes the modal into `active_components` — client state other
than the follow-up token map — so the invocation is not stateless apart from
that cache: starting from an empty registry, the registry afterwards holds the
modal, yet the claim says every client field besides the token cache is
unchanged. -/
theorem send_modal_mutates_active_components :
    (ResponseAdapter.send_modal ⟨"id1", "tok1", InteractionType.app_command, "app"⟩
        ⟨"app", "pk", "bt", [], [], []⟩ ⟨"m1", "title"⟩).map (fun r => r.1.active_components)
      = Except.ok [("m1", ActiveComponent.modal ⟨"m1", "title"⟩)] ∧
    ([("m1", ActiveComponent.modal ⟨"m1", "title"⟩)] : List (String × ActiveComponent)) ≠ [] :=
  ⟨rfl, by decide⟩

/-- C5 (amended): handling a single interaction mutates no client state other
than the follow-up token cache and the active-components registry: every
response operation leaves the application id, public key, bot token and
registered command table unchanged (and `autocomplete` and `defer` leave the
whole client unchanged). -/
theorem response_ops_frame (c : Client) (i : Interaction) (ci : ComponentInteraction)
    (content : Option String) (view : Option View) (ephemeral : Bool)
    (message_id : String) (m : Modal) (choices : List Choice) :
    framePreserved c (i.response c content view ephemeral).1 ∧
    framePreserved c (ResponseAdapter.send i c content view ephemeral).1 ∧
    framePreserved c (ResponseAdapter.followup i c content view ephemeral).1 ∧
    (∀ r, ResponseAdapter.send_modal i c m = Except.ok r → framePreserved c r.1) ∧
    framePreserved c (Interaction.send_modal i c m).1 ∧
    (∀ r, ResponseAdapter.autocomplete i c choices = Except.ok r → r.1 = c) ∧
    (∀ r, ResponseAdapter.defer i c ephemeral = Except.ok r → r.1 = c) ∧
    (∀ r, ResponseAdapter.update_message i c content view = Except.ok r →
      framePreserved c r.1) ∧
    framePreserved c (InteractionResponse.edit i c content view).1 ∧
    framePreserved c (FollowupResponse.edit i c message_id content view).1 ∧
    framePreserved c (ci.delete_original c).1 := by
  refine ⟨?_, ?_, ?_, ?_, ?_, ?_, ?_, ?_, ?_, ?_, ?_⟩
  · cases view <;> exact ⟨rfl, rfl, rfl, rfl⟩
  · cases view <;> exact ⟨rfl, rfl, rfl, rfl⟩
  · cases view <;> exact ⟨rfl, rfl, rfl, rfl⟩
  · intro r hr
    unfold ResponseAdapter.send_modal at hr
    split at hr
    · exact Except.noConfusion hr
    · injection hr with h
      rw [← h]
      exact ⟨rfl, rfl, rfl, rfl⟩
  · exact ⟨rfl, rfl, rfl, rfl⟩
  · intro r hr
    unfold ResponseAdapter.autocomplete at hr
    split at hr
    · exact Except.noConfusion hr
    · injection hr with h
      rw [← h]
  · intro r hr
    unfold ResponseAdapter.defer at hr
    split at hr
    · injection hr with h
      rw [← h]
    · split at hr
      · injection hr with h
        rw [← h]
      · exact Except.noConfusion hr
  · intro r hr
    unfold ResponseAdapter.update_message at hr
    split at hr
    · exact Except.noConfusion hr
    · injection hr with h
      rw [← h]
      cases view <;> exact ⟨rfl, rfl, rfl, rfl⟩
  · cases view <;> exact ⟨rfl, rfl, rfl, rfl⟩
  · cases view <;> exact ⟨rfl, rfl, rfl, rfl⟩
  · by_cases h : ci.origin c = "" <;>
      simp only [ComponentInteraction.delete_original, h, ite_true, ite_false] <;>
      exact ⟨rfl, rfl, rfl, rfl⟩

/-- Witness for the amended C5 at a concrete interaction. -/
theorem response_ops_frame_witness :
    framePreserved ⟨"app", "pk", "bt", [], [], []⟩
      (Interaction.response ⟨"id1", "tok1", InteractionType.app_command, "app"⟩
        ⟨"app", "pk", "bt", [], [], []⟩ none none false).1 :=
  (response_ops_frame ⟨"app", "pk", "bt", [], [], []⟩
    ⟨"id1", "tok1", InteractionType.app_command, "app"⟩
    ⟨⟨"id2", "tok2", InteractionType.component, "app"⟩, "pid"⟩
    none none false "m1" ⟨"mo", "title"⟩ []).1

/-- C10: `delete_original` pops only the cache entry keyed by the component
interaction's OWN id: when the origin token is cached under the parent id
(the id `origin` reads from the message's interaction data) and the component
interaction's id differs from the parent id, the parent entry is still
present afterwards; when the origin is empty, nothing is deleted at all. -/
theorem delete_original_preserves_parent_entry (ci : ComponentInteraction) (c : Client) :
    (∀ tok, dget c.cached_inter_tokens ci.parent_id = some tok → tok ≠ "" →
      ci.id ≠ ci.parent_id →
      dget (ci.delete_original c).1.cached_inter_tokens ci.parent_id = some tok) ∧
    (ci.origin c = "" → ci.delete_original c = (c, [])) ∧
    (ci.origin c ≠ "" →
      (ci.delete_original c).1.cached_inter_tokens = dpop c.cached_inter_tokens ci.id) := by
  refine ⟨fun tok htok hne hid => ?_, fun h => ?_, fun h => ?_⟩
  · have horg : ci.origin c = tok := by
      simp [ComponentInteraction.origin, htok]
    have hno : ¬ ci.origin c = "" := by rw [horg]; exact hne
    simp only [ComponentInteraction.delete_original, hno, if_false, ite_false]
    rw [dget_dpop_ne _ _ _ (fun hc => hid hc.symm)]
    exact htok
  · simp [ComponentInteraction.delete_original, h]
  · simp [ComponentInteraction.delete_original, h]

/-- Witness for C10 at a concrete cache holding the parent entry. -/
theorem delete_original_preserves_parent_entry_witness :
    dget ((ComponentInteraction.delete_original
        ⟨⟨"cid", "ctok", InteractionType.component, "app"⟩, "pid"⟩
        ⟨"app", "pk", "bt", [], [("pid", "ptok")], []⟩).1.cached_inter_tokens) "pid"
      = some "ptok" :=
  (delete_original_preserves_parent_entry
    ⟨⟨"cid", "ctok", InteractionType.component, "app"⟩, "pid"⟩
    ⟨"app", "pk", "bt", [], [("pid", "ptok")], []⟩).1 "ptok" rfl (by decide) (by decide)

/-- C7: `defer` sends exactly one deferred callback — the component-update
deferral for component interactions; the channel-message deferral, with
`{"flags": 64}` data exactly when `ephemeral`, for application-command and
modal-submit interactions — and raises `InteractionTypeMismatch` for every
other interaction type, sending nothing. -/
theorem defer_callback_shape (i : Interaction) (c : Client) (ephemeral : Bool) :
    (i.type = InteractionType.component →
      ResponseAdapter.defer i c ephemeral = Except.ok (c,
        [HttpCall.send_interaction_callback i.id i.token (J.obj
          [("type",
            J.nat InteractionCallbackType.deferred_update_component_message.value)])])) ∧
    (i.type = InteractionType.app_command ∨ i.type = InteractionType.modal_submit →
      ResponseAdapter.defer i c ephemeral = Except.ok (c,
        [HttpCall.send_interaction_callback i.id i.token (J.obj
          ([("type",
             J.nat InteractionCallbackType.deferred_channel_message_with_source.value)]
            ++ (if ephemeral then [("data", J.obj [("flags", J.nat 64)])] else [])))])) ∧
    (i.type = InteractionType.ping ∨ i.type = InteractionType.autocomplete →
      ResponseAdapter.defer i c ephemeral
        = Except.error (.interactionTypeMismatch i.type)) := by
  refine ⟨fun h => ?_, fun h => ?_, fun h => ?_⟩
  · simp [ResponseAdapter.defer, h]
  · rcases h with h | h <;> simp [ResponseAdapter.defer, h]
  · rcases h with h | h <;> simp [ResponseAdapter.defer, h]

/-- Witness for C7 at a concrete modal-submit interaction with the ephemeral
flag set. -/
theorem defer_callback_shape_witness :
    ResponseAdapter.defer ⟨"id1", "tok1", InteractionType.modal_submit, "app"⟩
      ⟨"app", "pk", "bt", [], [], []⟩ true
      = Except.ok (⟨"app", "pk", "bt", [], [], []⟩,
        [HttpCall.send_interaction_callback "id1" "tok1" (J.obj
          [("type", J.nat 5), ("data", J.obj [("flags", J.nat 64)])])]) :=
  (defer_callback_shape ⟨"id1", "tok1", InteractionType.modal_submit, "app"⟩
    ⟨"app", "pk", "bt", [], [], []⟩ true).2.1 (Or.inr rfl)

/-- C8: `autocomplete` raises `InteractionTypeMismatch` exactly when the
interaction is not an autocomplete — in which case it issues no HTTP call and
returns no state — and otherwise leaves the client unchanged and issues one
callback whose payload carries at most the first 25 choices, in their
original order, serialized by `to_dict`. -/
theorem autocomplete_truncates_choices (i : Interaction) (c : Client)
    (choices : List Choice) :
    (i.type ≠ InteractionType.autocomplete ↔
      ResponseAdapter.autocomplete i c choices
        = Except.error (.interactionTypeMismatch i.type)) ∧
    (i.type = InteractionType.autocomplete →
      ResponseAdapter.autocomplete i c choices = Except.ok (c,
        [HttpCall.send_interaction_callback i.id i.token (J.obj
          [("type", J.nat InteractionCallbackType.autocomplete.value),
           ("data",
            J.obj [("choices", J.arr ((choices.take 25).map Choice.to_dict))])])])) := by
  refine ⟨⟨fun h => ?_, fun h hty => ?_⟩, fun h => ?_⟩
  · simp [ResponseAdapter.autocomplete, h]
  · simp [ResponseAdapter.autocomplete, hty] at h
  · simp [ResponseAdapter.autocomplete, h]

/-- Witness for C8 at a concrete autocomplete interaction with two choices. -/
theorem autocomplete_truncates_choices_witness :
    ResponseAdapter.autocomplete ⟨"id1", "tok1", InteractionType.autocomplete, "app"⟩
      ⟨"app", "pk", "bt", [], [], []⟩ [⟨"a", "1"⟩, ⟨"b", "2"⟩]
      = Except.ok (⟨"app", "pk", "bt", [], [], []⟩,
        [HttpCall.send_interaction_callback "id1" "tok1" (J.obj
          [("type", J.nat 8),
           ("data", J.obj [("choices", J.arr
             [J.obj [("name", J.str "a"), ("value", J.str "1")],
              J.obj [("name", J.str "b"), ("value", J.str "2")]])])])]) :=
  (autocomplete_truncates_choices ⟨"id1", "tok1", InteractionType.autocomplete, "app"⟩
    ⟨"app", "pk", "bt", [], [], []⟩ [⟨"a", "1"⟩, ⟨"b", "2"⟩]).2 rfl

/-- C6: `ApplicationCommand.to_dict` serializes to Discord's shape: a truthy
permission list yields `default_member_permissions` as the decimal string of
the OR of the permission values (and the field is absent when the list is
`None`); `dm_permission` is present, with value `False`, exactly when
`dm_access` is `False`; and `description` and `options` appear only on
slash-category commands that provide them. -/
theorem ApplicationCommand_to_dict_shape (cmd : ApplicationCommand) :
    (∀ perms, cmd.permissions = some perms → perms ≠ [] →
      dget cmd.to_dict "default_member_permissions"
        = some (J.str (toString (perms.foldl (fun b p => b ||| p) 0)))) ∧
    (cmd.permissions = none →
      dget cmd.to_dict "default_member_permissions" = none) ∧
    (dget cmd.to_dict "dm_permission"
      = if cmd.dm_access then none else some (J.bool false)) ∧
    ((dget cmd.to_dict "description").isSome →
      cmd.category = ApplicationCommandType.slash ∧ cmd.description ≠ none) ∧
    ((dget cmd.to_dict "options").isSome →
      cmd.category = ApplicationCommandType.slash ∧ cmd.options ≠ none) := by
  obtain ⟨name, description, options, dm_access, permissions, category⟩ := cmd
  refine ⟨?_, ?_, ?_, ?_, ?_⟩
  · intro perms hp hne
    simp only at hp
    subst hp
    simp [ApplicationCommand.to_dict, hne, dget_dset]
  · intro hp
    simp only at hp
    subst hp
    rcases category <;> rcases description with _ | d <;> rcases options with _ | os <;>
      rcases dm_access <;>
      simp [ApplicationCommand.to_dict, dget_ite_dset, dget_ite_dset_swap, dget_dset, dget]
  · rcases category <;> rcases description with _ | d <;> rcases options with _ | os <;>
      rcases dm_access <;> rcases permissions with _ | ps <;>
      simp [ApplicationCommand.to_dict, dget_ite_dset, dget_ite_dset_swap, dget_dset, dget]
  · rcases category <;> rcases description with _ | d <;> rcases options with _ | os <;>
      rcases dm_access <;> rcases permissions with _ | ps <;>
      simp [ApplicationCommand.to_dict, dget_ite_dset, dget_ite_dset_swap, dget_dset, dget]
  · rcases category <;> rcases description with _ | d <;> rcases options with _ | os <;>
      rcases dm_access <;> rcases permissions with _ | ps <;>
      simp [ApplicationCommand.to_dict, dget_ite_dset, dget_ite_dset_swap, dget_dset, dget]

/-- Witness for C6 at a concrete slash command with permissions 8 and 1 and
DM access disabled. -/
theorem ApplicationCommand_to_dict_shape_witness :
    dget (ApplicationCommand.to_dict
        ⟨"x", some "hello", none, false, some [8, 1], ApplicationCommandType.slash⟩)
      "default_member_permissions" = some (J.str "9") :=
  (ApplicationCommand_to_dict_shape
    ⟨"x", some "hello", none, false, some [8, 1], ApplicationCommandType.slash⟩).1
    [8, 1] rfl (by decide)

end Discohook
